import Mathlib

/-
Verification development for the receipts_ocr task-lifecycle core.

Shallow embedding of the Python sources:
  app/database.py        — the Task row and identifier generation
  app/json_parser.py     — JsonParser.parse_image (extraction collaborator wrapper)
  app/background_tasks.py — process_task (the background processor)
  app/frontend_routers.py — create_task and get_task (the HTTP handlers)

Modelling conventions:
  * JSON values are the inductive `Json`.  Python merges JSON `null`, the
    Python object `None` and an SQL NULL column into one value, so the
    `extracted_json` column is modelled as a plain `Json` with `Json.null`
    standing for "no result stored yet" (the column default).
  * Python truthiness (`if task.extracted_json:`) is `Json.truthy`.
  * The database is a list of Task rows; `db.query(Task).filter(...).first()`
    is `List.find?` on the row list; a committed UPDATE maps over the rows.
  * Exceptions from external collaborators (the tmpfiles upload, the
    Together chat call, `json.loads`) are `Except Unit _` outcomes supplied
    by an `ExtractionEnv` oracle; a `commitOk` flag models whether
    `db.commit()` succeeds (False = the commit raises and `db.rollback()`
    restores the durable state).
  * `uuid.uuid4()` is modelled as drawing from a fresh-supply counter
    (`SysState.nextId`): an opaque identifier never issued before.
  * The wall clock feeding `created_at` / `updated_at` is an explicit
    `now : Nat` argument.
-/

namespace ReceiptsOcr

/-- JSON values as produced by `json.loads` and stored in the JSON column. -/
inductive Json where
  | null : Json
  | bool : Bool → Json
  | num : Int → Json
  | str : String → Json
  | arr : List Json → Json
  | obj : List (String × Json) → Json

/-- Python truthiness of a JSON value: `None`, `False`, `0`, `""`, `[]`
and `{}` are falsy, everything else is truthy. -/
def Json.truthy : Json → Bool
  | Json.null => false
  | Json.bool b => b
  | Json.num n => n != 0
  | Json.str s => !s.isEmpty
  | Json.arr xs => !xs.isEmpty
  | Json.obj fs => !fs.isEmpty

/-- The Python identity test `task.extracted_json is None`. -/
def Json.isNull : Json → Bool
  | Json.null => true
  | _ => false

/-- One row of the `tasks` table (app/database.py, class Task).
`extracted_json` is `Json.null` while no result is stored. -/
structure Task where
  task_id : Nat
  image_data : List Nat
  extracted_json : Json
  created_at : Nat
  updated_at : Nat

/-- `Task.generate_task_id` (app/database.py): `uuid.uuid4()` modelled as
drawing the next identifier from a fresh-supply counter. -/
def generate_task_id (counter : Nat) : Nat := counter

/-- `db.query(Task).filter(Task.task_id == task_id).first()`. -/
def dbFirst (store : List Task) (tid : Nat) : Option Task :=
  store.find? (fun t => t.task_id == tid)

/-- Outcomes of the external collaborators used by `JsonParser.parse_image`
(app/json_parser.py): the tmpfiles.org upload, the Together chat-completion
call, and `json.loads` on the (fence-stripped) model output.  Each may raise,
modelled as `Except.error ()`. -/
structure ExtractionEnv where
  upload : List Nat → Except Unit String
  chat : String → Except Unit String
  jsonLoads : String → Except Unit Json

def fenceJson : String := "```json"

def fence : String := "```"

def emptyStr : String := ""

/-- The fence stripping in `parse_image`:
`json_text.replace("```json", "").replace("```", "")`. -/
def stripCodeFences (s : String) : String :=
  String.replace (String.replace s fenceJson emptyStr) fence emptyStr

/-- `JsonParser.parse_image` (app/json_parser.py, lines 125-148): upload the
image, call the model, strip code fences, `json.loads` the text; the whole
body is wrapped in `try/except Exception`, and any failure returns `{}`.
The return type `Json` (not `Except _ Json`) records that no exception
escapes this function. -/
def parse_image (env : ExtractionEnv) (image_data : List Nat) : Json :=
  match env.upload image_data with
  | Except.error _ => Json.obj []
  | Except.ok image_url =>
    match env.chat image_url with
    | Except.error _ => Json.obj []
    | Except.ok json_text =>
      match env.jsonLoads (stripCodeFences json_text) with
      | Except.error _ => Json.obj []
      | Except.ok j => j

/-- The extraction collaborator fails somewhere inside `parse_image`:
the upload raises, or the chat call raises, or the model output does not
parse as JSON. -/
def collabFails (env : ExtractionEnv) (image_data : List Nat) : Bool :=
  match env.upload image_data with
  | Except.error _ => true
  | Except.ok image_url =>
    match env.chat image_url with
    | Except.error _ => true
    | Except.ok json_text =>
      match env.jsonLoads (stripCodeFences json_text) with
      | Except.error _ => true
      | Except.ok _ => false

/-- `process_task` (app/background_tasks.py): look up the task; if absent,
log and return.  Otherwise run `parse_image`, assign the result to
`task.extracted_json` and commit (which also refreshes `updated_at` via the
column `onupdate` setting).  If the commit raises (`commitOk = false`), the inner
`except` logs and rolls back, leaving the durable state unchanged.  The
session cleanup in the `finally` block does not touch durable state. -/
def process_task (env : ExtractionEnv) (commitOk : Bool) (now : Nat)
    (store : List Task) (tid : Nat) : List Task :=
  match dbFirst store tid with
  | none => store
  | some task =>
    let json_data := parse_image env task.image_data
    if commitOk then
      store.map (fun t =>
        if t.task_id == tid then
          { t with extracted_json := json_data, updated_at := now }
        else t)
    else store

/-- The JSON body returned by `get_task`; `extracted_json = none` means the
response dict has no `extracted_json` key at all. -/
structure PollResponse where
  task_id : Nat
  status : String
  extracted_json : Option Json

def notFoundDetail : String := "Task not found"

/-- `get_task` (app/frontend_routers.py, lines 35-51): 404 when the row is
absent; otherwise status is "processing" iff `extracted_json is None`, else
"completed", and the `extracted_json` key is added only when the stored
value is truthy (`if task.extracted_json:`). -/
def get_task (store : List Task) (tid : Nat) : Except String PollResponse :=
  match dbFirst store tid with
  | none => Except.error notFoundDetail
  | some task =>
    if task.extracted_json.isNull then
      Except.ok { task_id := task.task_id, status := "processing",
                  extracted_json := none }
    else
      Except.ok { task_id := task.task_id, status := "completed",
                  extracted_json :=
                    if task.extracted_json.truthy then some task.extracted_json
                    else none }

/-- Observable steps of the `create_task` handler, used to state its
ordering contract. -/
inductive Event where
  | commitCreate : Nat → Event
  | schedule : Nat → Event
  | respond : Nat → Event
  | runProcess : Nat → Event
deriving DecidableEq

/-- Durable store plus the fresh-identifier supply. -/
structure SysState where
  store : List Task
  nextId : Nat

/-- Result of one `create_task` request: the new durable state, the
`task_id` in the response body, and the ordered trace of observable steps
the handler performed. -/
structure CreateOutcome where
  state : SysState
  response_task_id : Nat
  trace : List Event

/-- `create_task` (app/frontend_routers.py, lines 12-32): read the upload,
generate a fresh id, insert the row (`extracted_json` NULL, timestamps
defaulted), commit, then — when a BackgroundTasks object was injected —
schedule `process_task`, and return `{"task_id": task_id}`.  FastAPI runs
scheduled background tasks only after the response is sent, so the trace of
the handler itself contains no `runProcess` step. -/
def create_task (s : SysState) (contents : List Nat) (now : Nat)
    (hasBg : Bool) : CreateOutcome :=
  let tid := generate_task_id s.nextId
  let new_task : Task :=
    { task_id := tid, image_data := contents, extracted_json := Json.null,
      created_at := now, updated_at := now }
  { state := { store := s.store ++ [new_task], nextId := s.nextId + 1 },
    response_task_id := tid,
    trace := Event.commitCreate tid ::
      ((if hasBg then [Event.schedule tid] else []) ++ [Event.respond tid]) }

/-- Freshness invariant justifying uuid uniqueness in the model: every
identifier already stored is below the supply counter. -/
def IdsBelow (s : SysState) : Prop :=
  ∀ t ∈ s.store, t.task_id < s.nextId

/-- Concrete extraction environment in which the upload itself raises:
a collaborator stub that raises on the very first step. -/
def envAllFail : ExtractionEnv :=
  { upload := fun _ => Except.error (),
    chat := fun _ => Except.error (),
    jsonLoads := fun _ => Except.error () }

/-- Concrete extraction environment in which every collaborator step
succeeds and the model output parses to a one-field receipt object. -/
def envStub : ExtractionEnv :=
  { upload := fun _ => Except.ok ("http://tmpfiles.org/dl/1/receipt.jpg"),
    chat := fun _ => Except.ok ("model output"),
    jsonLoads := fun _ => Except.ok (Json.obj [("total_amount", Json.num 12)]) }

/-- Concrete uploaded bytes for the scenario runs. -/
def demoBytes : List Nat := [1, 2, 3]

/-- Concrete freshly created task row (what `create_task` stores). -/
def task0 : Task :=
  { task_id := 0, image_data := demoBytes, extracted_json := Json.null,
    created_at := 0, updated_at := 0 }

/-- Store produced by one `create_task` call on an empty system. -/
def demoStore : List Task :=
  (create_task { store := [], nextId := 0 } demoBytes 0 true).state.store

/- ------------------------------------------------------------------ -/
/- Helper lemmas                                                       -/
/- ------------------------------------------------------------------ -/

theorem Json.isNull_iff (j : Json) : j.isNull = true ↔ j = Json.null := by
  cases j <;> simp [Json.isNull]

theorem dbFirst_task_id {store : List Task} {tid : Nat} {task : Task}
    (h : dbFirst store tid = some task) : task.task_id = tid := by
  unfold dbFirst at h
  have hp := List.find?_some h
  simpa using hp

/-- The committed UPDATE of `process_task` commutes with the row lookup. -/
theorem dbFirst_update (store : List Task) (tid : Nat) (j : Json) (now : Nat) :
    dbFirst (store.map (fun t =>
        if t.task_id == tid then { t with extracted_json := j, updated_at := now }
        else t)) tid
      = (dbFirst store tid).map
          (fun t => { t with extracted_json := j, updated_at := now }) := by
  induction store with
  | nil => rfl
  | cons t ts ih =>
    by_cases h : t.task_id = tid
    · simp [dbFirst, List.find?, h]
    · simp only [dbFirst, List.map_cons] at ih ⊢
      rw [if_neg (by simpa using h)]
      rw [List.find?_cons_of_neg, List.find?_cons_of_neg]
      · exact ih
      · simpa using h
      · simpa using h

/-- A row whose identifier is fresh for the whole store is found exactly
at the appended position. -/
theorem dbFirst_append_fresh (store : List Task) (new : Task)
    (h : ∀ t ∈ store, t.task_id ≠ new.task_id) :
    dbFirst (store ++ [new]) new.task_id = some new := by
  unfold dbFirst
  rw [List.find?_append]
  have h1 : store.find? (fun t => t.task_id == new.task_id) = none := by
    rw [List.find?_eq_none]
    intro t ht
    simpa using h t ht
  rw [h1]
  simp

/-- Any collaborator failure makes `parse_image` return the empty object. -/
theorem collabFails_parse_image {env : ExtractionEnv} {img : List Nat}
    (h : collabFails env img = true) : parse_image env img = Json.obj [] := by
  unfold collabFails at h
  unfold parse_image
  cases hu : env.upload img with
  | error e => simp [hu]
  | ok image_url =>
    cases hc : env.chat image_url with
    | error e => simp [hu, hc]
    | ok json_text =>
      cases hj : env.jsonLoads (stripCodeFences json_text) with
      | error e => simp [hu, hc, hj]
      | ok j => simp [hu, hc, hj] at h

/-- Shape of the store after a successful processor run: the looked-up
task decides the written value, and the write is the UPDATE map. -/
theorem process_task_store_eq (env : ExtractionEnv) (now : Nat)
    (store : List Task) (tid : Nat) (task : Task)
    (h : dbFirst store tid = some task) :
    process_task env true now store tid
      = store.map (fun t =>
          if t.task_id == tid then
            { t with extracted_json := parse_image env task.image_data,
                     updated_at := now }
          else t) := by
  unfold process_task
  rw [h]
  rfl

/-- After a processor run whose collaborator failed (and whose commit
succeeded), the stored row carries the empty result object. -/
theorem store_after_collab_fail (env : ExtractionEnv) (now : Nat)
    (store : List Task) (tid : Nat) (task : Task)
    (h : dbFirst store tid = some task)
    (hfail : collabFails env task.image_data = true) :
    dbFirst (process_task env true now store tid) tid
      = some { task with extracted_json := Json.obj [], updated_at := now } := by
  rw [process_task_store_eq env now store tid task h,
      collabFails_parse_image hfail, dbFirst_update, h]
  rfl

/-- After a processor run whose collaborator failed (and whose commit
succeeded), polling answers completed with no `extracted_json` key. -/
theorem get_after_collab_fail (env : ExtractionEnv) (now : Nat)
    (store : List Task) (tid : Nat) (task : Task)
    (h : dbFirst store tid = some task)
    (hfail : collabFails env task.image_data = true) :
    get_task (process_task env true now store tid) tid
      = Except.ok { task_id := task.task_id, status := "completed",
                    extracted_json := none } := by
  unfold get_task
  rw [store_after_collab_fail env now store tid task h hfail]
  rfl

/-- Characterisation of `get_task` on a present row. -/
theorem get_task_found (store : List Task) (tid : Nat) (task : Task)
    (h : dbFirst store tid = some task) :
    get_task store tid =
      if task.extracted_json.isNull then
        Except.ok { task_id := task.task_id, status := "processing",
                    extracted_json := none }
      else
        Except.ok { task_id := task.task_id, status := "completed",
                    extracted_json :=
                      if task.extracted_json.truthy then some task.extracted_json
                      else none } := by
  unfold get_task
  rw [h]

theorem processing_ne_completed : ("processing" : String) ≠ "completed" := by
  decide

theorem completed_ne_processing : ("completed" : String) ≠ "processing" := by
  decide

/- ------------------------------------------------------------------ -/
/- Claim theorems                                                      -/
/- ------------------------------------------------------------------ -/

/-- C1 counterexample: run the scenario given in the spec — create, then the
processor runs with a collaborator stub whose upload raises.  The stored
result is the empty object `{}` (so the task is completed and its stored
result is non-null), yet the poll response does NOT carry
`"extracted_json": {}`: the handler guards the key with Python truthiness
(`if task.extracted_json:`), and `{}` is falsy, so the key is omitted. -/
theorem C1_counterexample :
    dbFirst (process_task envAllFail true 1 demoStore 0) 0
        = some { task_id := 0, image_data := demoBytes,
                 extracted_json := Json.obj [], created_at := 0,
                 updated_at := 1 } ∧
    get_task (process_task envAllFail true 1 demoStore 0) 0
        ≠ Except.ok { task_id := 0, status := "completed",
                      extracted_json := some (Json.obj []) } := by
  refine ⟨rfl, ?_⟩
  intro hcontr
  have hval : get_task (process_task envAllFail true 1 demoStore 0) 0
      = Except.ok { task_id := 0, status := "completed",
                    extracted_json := none } := rfl
  rw [hval] at hcontr
  simp at hcontr

/-- C1 (amended): the poll includes the `extracted_json` key exactly when
the task is completed and its stored result is truthy (non-empty) — not
merely non-null — and when present the key carries the stored result;
in particular, after the processor runs with a collaborator that raises,
polling returns status "completed" with NO `extracted_json` key (the
stored empty object is not echoed). -/
theorem C1_extracted_json_key :
    (∀ (store : List Task) (tid : Nat) (task : Task),
      dbFirst store tid = some task →
      ∃ r : PollResponse, get_task store tid = Except.ok r ∧
        (r.extracted_json.isSome = true ↔
          (r.status = "completed" ∧ task.extracted_json.truthy = true)) ∧
        (∀ j : Json, r.extracted_json = some j → j = task.extracted_json)) ∧
    (∀ (store : List Task) (tid : Nat) (task : Task) (env : ExtractionEnv)
        (now : Nat),
      dbFirst store tid = some task →
      collabFails env task.image_data = true →
      get_task (process_task env true now store tid) tid
        = Except.ok { task_id := task.task_id, status := "completed",
                      extracted_json := none }) := by
  constructor
  · intro store tid task h
    rw [get_task_found store tid task h]
    by_cases hn : task.extracted_json = Json.null
    · rw [if_pos ((Json.isNull_iff _).mpr hn)]
      refine ⟨_, rfl, ?_, ?_⟩
      · exact iff_of_false (by simp) (fun hc => processing_ne_completed hc.1)
      · intro j hj
        exact Option.noConfusion hj
    · rw [if_neg (fun hb => hn ((Json.isNull_iff _).mp hb))]
      cases htr : task.extracted_json.truthy with
      | true =>
        refine ⟨_, rfl, ?_, ?_⟩
        · simp [htr]
        · intro j hj
          simp [htr] at hj
          exact hj.symm
      | false =>
        refine ⟨_, rfl, ?_, ?_⟩
        · simp [htr]
        · intro j hj
          simp [htr] at hj
  · intro store tid task env now h hfail
    exact get_after_collab_fail env now store tid task h hfail

/-- Witness for the amended C1, running the failing-collaborator scenario
on a concrete store. -/
theorem C1_extracted_json_key_witness :
    get_task (process_task envAllFail true 1 [task0] 0) 0
      = Except.ok { task_id := task0.task_id, status := "completed",
                    extracted_json := none } :=
  C1_extracted_json_key.2 [task0] 0 task0 envAllFail 1 rfl rfl

/-- C3: for every stored task, the poll status is derived purely from the
stored row: "processing" iff no result is stored (the column is NULL) and
"completed" iff a result — possibly empty — is stored, whatever point of
the life of the task the poll happens at. -/
theorem C3_status_derived (store : List Task) (tid : Nat) (task : Task)
    (h : dbFirst store tid = some task) :
    ∃ r : PollResponse, get_task store tid = Except.ok r ∧
      (r.status = "processing" ↔ task.extracted_json = Json.null) ∧
      (r.status = "completed" ↔ task.extracted_json ≠ Json.null) := by
  rw [get_task_found store tid task h]
  by_cases hn : task.extracted_json = Json.null
  · rw [if_pos ((Json.isNull_iff _).mpr hn)]
    exact ⟨_, rfl, iff_of_true rfl hn,
      iff_of_false processing_ne_completed (fun hne => hne hn)⟩
  · rw [if_neg (fun hb => hn ((Json.isNull_iff _).mp hb))]
    exact ⟨_, rfl, iff_of_false completed_ne_processing hn,
      iff_of_true rfl hn⟩

/-- Witness for C3 on a concrete one-row store. -/
theorem C3_status_derived_witness :
    ∃ r : PollResponse, get_task [task0] 0 = Except.ok r ∧
      (r.status = "processing" ↔ task0.extracted_json = Json.null) ∧
      (r.status = "completed" ↔ task0.extracted_json ≠ Json.null) :=
  C3_status_derived [task0] 0 task0 rfl

/-- C2: for every existing task, if the extraction collaborator fails while
the processor runs on it (and the durable commit itself succeeds), the
processor stores the empty result object, and a subsequent `get_task`
returns status "completed" — not "processing" and not an error — with the
failure never surfaced to the API caller (the poll succeeds with
`Except.ok`). -/
theorem C2_collab_failure_completes (store : List Task) (tid : Nat)
    (task : Task) (env : ExtractionEnv) (now : Nat)
    (h : dbFirst store tid = some task)
    (hfail : collabFails env task.image_data = true) :
    dbFirst (process_task env true now store tid) tid
        = some { task with extracted_json := Json.obj [], updated_at := now } ∧
    ∃ r : PollResponse,
      get_task (process_task env true now store tid) tid = Except.ok r ∧
      r.status = "completed" ∧ r.status ≠ "processing" := by
  refine ⟨store_after_collab_fail env now store tid task h hfail,
    { task_id := task.task_id, status := "completed", extracted_json := none },
    get_after_collab_fail env now store tid task h hfail, rfl, ?_⟩
  show ("completed" : String) ≠ "processing"
  decide

/-- Witness for C2 at a concrete store, task and failing collaborator. -/
theorem C2_collab_failure_completes_witness :
    dbFirst (process_task envAllFail true 1 [task0] 0) 0
        = some { task0 with extracted_json := Json.obj [], updated_at := 1 } ∧
    ∃ r : PollResponse,
      get_task (process_task envAllFail true 1 [task0] 0) 0 = Except.ok r ∧
      r.status = "completed" ∧ r.status ≠ "processing" :=
  C2_collab_failure_completes [task0] 0 task0 envAllFail 1 rfl rfl

/-- C4: invoking the processor on a task identifier absent from the store
is a terminal silent no-op: no error value, and the stored state is
returned entirely unchanged. -/
theorem C4_missing_task_noop (env : ExtractionEnv) (commitOk : Bool)
    (now : Nat) (store : List Task) (tid : Nat)
    (h : dbFirst store tid = none) :
    process_task env commitOk now store tid = store := by
  unfold process_task
  rw [h]

/-- Witness for C4 on the empty store. -/
theorem C4_missing_task_noop_witness :
    process_task envAllFail true 0 [] 0 = [] :=
  C4_missing_task_noop envAllFail true 0 [] 0 rfl

/-- C5 counterexample: the collaborator succeeds but the commit raises
inside the extraction-and-commit step; the claim says the processor then
writes the empty result object `{}` to the task, but the stored row is in
fact unchanged — its result is still NULL, not `{}`. -/
theorem C5_counterexample :
    dbFirst (process_task envStub false 1 [task0] 0) 0 = some task0 ∧
    task0.extracted_json ≠ Json.obj [] := by
  refine ⟨rfl, ?_⟩
  intro hcontr
  exact Json.noConfusion hcontr

/-- C5 (amended): when an error is raised inside the processor
extraction-and-commit step for an existing task, the processor rolls back
the partial transaction state and finishes without writing anything — the
stored row is exactly what it was before the run. -/
theorem C5_rollback_writes_nothing (env : ExtractionEnv) (now : Nat)
    (store : List Task) (tid : Nat) (task : Task)
    (h : dbFirst store tid = some task) :
    process_task env false now store tid = store ∧
    dbFirst (process_task env false now store tid) tid = some task := by
  have hs : process_task env false now store tid = store := by
    unfold process_task
    rw [h]
    rfl
  exact ⟨hs, by rw [hs]; exact h⟩

/-- Witness for the amended C5 at a concrete store and task. -/
theorem C5_rollback_writes_nothing_witness :
    process_task envStub false 1 [task0] 0 = [task0] ∧
    dbFirst (process_task envStub false 1 [task0] 0) 0 = some task0 :=
  C5_rollback_writes_nothing envStub 1 [task0] 0 task0 rfl

/-- C6: if the durable commit of the result fails while the processor runs
on an existing task, the rollback leaves the stored state unchanged, so a
task that had no result before the run still polls as "processing". -/
theorem C6_commit_failure_stays_processing (env : ExtractionEnv) (now : Nat)
    (store : List Task) (tid : Nat) (task : Task)
    (h : dbFirst store tid = some task)
    (hnull : task.extracted_json = Json.null) :
    process_task env false now store tid = store ∧
    get_task (process_task env false now store tid) tid
      = Except.ok { task_id := task.task_id, status := "processing",
                    extracted_json := none } := by
  have hs : process_task env false now store tid = store := by
    unfold process_task
    rw [h]
    rfl
  refine ⟨hs, ?_⟩
  rw [hs]
  unfold get_task
  rw [h]
  simp [hnull, Json.isNull]

/-- Witness for C6 at a concrete store and unprocessed task. -/
theorem C6_commit_failure_stays_processing_witness :
    process_task envStub false 1 [task0] 0 = [task0] ∧
    get_task (process_task envStub false 1 [task0] 0) 0
      = Except.ok { task_id := task0.task_id, status := "processing",
                    extracted_json := none } :=
  C6_commit_failure_stays_processing envStub 1 [task0] 0 task0 rfl rfl

/-- C10: `JsonParser.parse_image` is total at its interface — its return
type is a plain `Json`, so no exception reaches the caller — and on any
internal failure (upload error, model-call error, unparsable model output)
it returns the empty mapping. -/
theorem C10_parse_image_total (env : ExtractionEnv) (image_data : List Nat)
    (h : collabFails env image_data = true) :
    parse_image env image_data = Json.obj [] :=
  collabFails_parse_image h

/-- Witness for C10 with a collaborator whose upload step raises. -/
theorem C10_parse_image_total_witness :
    parse_image envAllFail demoBytes = Json.obj [] :=
  C10_parse_image_total envAllFail demoBytes rfl

/-- C7: frame property of a processor run.  Row for row, only the
`extracted_json` value and the `updated_at` timestamp can change:
`task_id`, `image_data` and `created_at` are preserved, and every row
whose identifier differs from the processed one is left entirely
untouched.  This holds whether or not the commit succeeds. -/
theorem C7_frame (env : ExtractionEnv) (commitOk : Bool) (now : Nat)
    (store : List Task) (tid : Nat) :
    List.Forall₂ (fun t t2 =>
        t2.task_id = t.task_id ∧ t2.image_data = t.image_data ∧
        t2.created_at = t.created_at ∧ (t.task_id ≠ tid → t2 = t))
      store (process_task env commitOk now store tid) := by
  have hrefl : List.Forall₂ (fun t t2 =>
      t2.task_id = t.task_id ∧ t2.image_data = t.image_data ∧
      t2.created_at = t.created_at ∧ (t.task_id ≠ tid → t2 = t))
      store store :=
    List.forall₂_same.mpr (fun t _ => ⟨rfl, rfl, rfl, fun _ => rfl⟩)
  unfold process_task
  cases hfind : dbFirst store tid with
  | none => exact hrefl
  | some task =>
    cases commitOk with
    | false => exact hrefl
    | true =>
      show List.Forall₂ _ store (store.map _)
      rw [List.forall₂_map_right_iff]
      refine List.forall₂_same.mpr ?_
      intro t _
      by_cases h : t.task_id = tid
      · refine ⟨?_, ?_, ?_, ?_⟩
        · simp [h]
        · simp [h]
        · simp [h]
        · intro hne
          exact absurd h hne
      · simp [h]

/-- C8: in the trace of the `create_task` handler, the durable commit of the
new row is the first step, scheduling the background processor comes
strictly after it, the response follows, and no step of the handler runs
the processor itself — the response never waits for extraction. -/
theorem C8_commit_before_schedule (s : SysState) (contents : List Nat)
    (now : Nat) :
    ((create_task s contents now true).trace)[0]?
        = some (Event.commitCreate
            (create_task s contents now true).response_task_id) ∧
    ((create_task s contents now true).trace)[1]?
        = some (Event.schedule
            (create_task s contents now true).response_task_id) ∧
    ((create_task s contents now true).trace)[2]?
        = some (Event.respond
            (create_task s contents now true).response_task_id) ∧
    ∀ tid2 : Nat,
      Event.runProcess tid2 ∉ (create_task s contents now true).trace := by
  refine ⟨rfl, rfl, rfl, ?_⟩
  intro tid2 hmem
  simp [create_task] at hmem

/-- C9: under the freshness invariant of the identifier supply, `create`
returns an identifier never previously issued, persists a row holding the
uploaded bytes with a NULL result and both timestamps set to now, and an
immediate poll on that identifier answers "processing". -/
theorem C9_create_fresh (s : SysState) (contents : List Nat) (now : Nat)
    (hasBg : Bool) (hfresh : IdsBelow s) :
    ((create_task s contents now hasBg).response_task_id ∉
        s.store.map Task.task_id) ∧
    dbFirst (create_task s contents now hasBg).state.store
        (create_task s contents now hasBg).response_task_id
      = some { task_id := (create_task s contents now hasBg).response_task_id,
               image_data := contents, extracted_json := Json.null,
               created_at := now, updated_at := now } ∧
    get_task (create_task s contents now hasBg).state.store
        (create_task s contents now hasBg).response_task_id
      = Except.ok
          { task_id := (create_task s contents now hasBg).response_task_id,
            status := "processing", extracted_json := none } := by
  have hne : ∀ t ∈ s.store, t.task_id ≠ s.nextId :=
    fun t ht => Nat.ne_of_lt (hfresh t ht)
  have hdb : dbFirst (create_task s contents now hasBg).state.store s.nextId
      = some { task_id := s.nextId, image_data := contents,
               extracted_json := Json.null, created_at := now,
               updated_at := now } :=
    dbFirst_append_fresh s.store _ hne
  refine ⟨?_, hdb, ?_⟩
  · intro hmem
    rcases List.mem_map.mp hmem with ⟨t, ht, htid⟩
    exact hne t ht htid
  · have hid : (create_task s contents now hasBg).response_task_id = s.nextId :=
      rfl
    rw [hid, get_task_found _ _ _ hdb]
    rfl

/-- Witness for C9 on the empty initial system. -/
theorem C9_create_fresh_witness :
    ((create_task { store := [], nextId := 0 } demoBytes 0 true).response_task_id
        ∉ ({ store := [], nextId := 0 } : SysState).store.map Task.task_id) ∧
    dbFirst (create_task { store := [], nextId := 0 } demoBytes 0 true).state.store
        (create_task { store := [], nextId := 0 } demoBytes 0 true).response_task_id
      = some { task_id := (create_task { store := [], nextId := 0 }
                 demoBytes 0 true).response_task_id,
               image_data := demoBytes, extracted_json := Json.null,
               created_at := 0, updated_at := 0 } ∧
    get_task (create_task { store := [], nextId := 0 } demoBytes 0 true).state.store
        (create_task { store := [], nextId := 0 } demoBytes 0 true).response_task_id
      = Except.ok
          { task_id := (create_task { store := [], nextId := 0 }
              demoBytes 0 true).response_task_id,
            status := "processing", extracted_json := none } :=
  C9_create_fresh { store := [], nextId := 0 } demoBytes 0 true
    (fun t ht => absurd ht (List.not_mem_nil t))

/-- The freshness invariant is preserved by `create_task` (and trivially by
`process_task`, which never changes identifiers or the supply), so the
hypothesis of the create/freshness theorem holds in every reachable
state starting from the empty system. -/
theorem create_task_preserves_IdsBelow (s : SysState) (contents : List Nat)
    (now : Nat) (hasBg : Bool) (h : IdsBelow s) :
    IdsBelow (create_task s contents now hasBg).state := by
  intro t ht
  rcases List.mem_append.mp ht with ht1 | ht2
  · exact Nat.lt_succ_of_lt (h t ht1)
  · rcases List.mem_singleton.mp ht2 with rfl
    exact Nat.lt_succ_self _

end ReceiptsOcr
